import Mathlib

/-
Shallow embedding of the voice Q&A webhook service in src/main.py.

The service exposes two webhook endpoints:
  * POST /twilio/voice            (function twilio_voice, lines 112-126)
  * POST /twilio/process_recording (function process_recording, lines 128-178)

External collaborators (Azure speech recognition and synthesis, the LLM
chain, Firestore, Firebase storage, HTTP download) are modelled as oracle
functions supplied in an environment; an oracle returns `Except Err v`
because the corresponding Python call can raise an exception.  The source
contains no try/except anywhere, so a raised exception propagates out of
the handler; the embedding mirrors this by propagating `Except.error`
through the same control flow as the source.
-/

namespace Phisda

/-- Audio payloads, modelled as abstract byte lists. -/
abbrev Bytes := List Nat

/-- A raised Python exception from one of the collaborators.  The source
never catches any of these, so the constructor only records which
collaborator raised. -/
inductive Err
  | transport
  | sttErr
  | llmErr
  | ttsErr
  | storeErr
  | publishErr
  deriving DecidableEq, Repr

/-- One TwiML call-control instruction, as produced through the
`VoiceResponse` builder in the source: `vr.say`, `vr.play`, `vr.record`. -/
inductive Instr
  | say (text : String)
  | play (url : String)
  | record (action : String) (method : String) (maxLength : Nat)
      (playBeep : Bool) (trim : String) (timeout : Nat)
  deriving DecidableEq, Repr

/-- The record instruction used verbatim by both endpoints
(src/main.py lines 117-124 and 169-176). -/
def recordInstr : Instr :=
  Instr.record "/twilio/process_recording" "POST" 30 true "trim-silence" 3

/-- Greeting spoken by the call-start endpoint (line 116). -/
def greeting : String :=
  "Hello. You\x27re connected to the legal information assistant. Please ask your question after the beep. Then pause."

/-- Terminal fallback of the call-start endpoint (line 125). -/
def startGoodbye : String :=
  "I didn\x27t receive a recording. Goodbye."

/-- `POST /twilio/voice` (lines 112-126): the initial webhook builds a
fixed instruction list and performs no external calls. -/
def twilio_voice : List Instr :=
  [ Instr.say greeting,
    recordInstr,
    Instr.say startGoodbye ]

/-- Reasons the Azure speech SDK can report on a recognition result. -/
inductive ResultReason
  | recognizedSpeech
  | noMatch
  | canceled
  deriving DecidableEq, Repr

/-- An Azure `recognize_once` result: a reason plus recognized text. -/
structure RecognizeResult where
  reason : ResultReason
  text : String
  deriving DecidableEq, Repr

/-- `azure_transcribe_from_url` (lines 33-50): download the audio
(`requests.get` may raise, modelled by the `download` oracle returning
`Except`), run the recognizer, and return `result.text` only when the
reason is RecognizedSpeech, an empty string otherwise.  Every
non-recognized reason, including `canceled` (an engine failure), falls
into the `else` branch at lines 49-50. -/
def azure_transcribe_from_url (download : String → Except Err Bytes)
    (recognize : Bytes → RecognizeResult) (audio_url : String) :
    Except Err String :=
  match download audio_url with
  | Except.error e => Except.error e
  | Except.ok wav =>
    let result := recognize wav
    if result.reason = ResultReason.recognizedSpeech then
      Except.ok result.text
    else
      Except.ok ""

/-- Python `str.strip()` with no argument: remove leading and trailing
whitespace (used at line 139 as `transcript.strip()`). -/
def py_strip (s : String) : String :=
  String.mk (((s.data.dropWhile Char.isWhitespace).reverse.dropWhile
    Char.isWhitespace).reverse)

/-- A value stored in the Firestore turn document: the source stores
strings and the possibly-absent `From` / `To` form fields. -/
inductive FireVal
  | s (v : String)
  | optS (v : Option String)
  deriving DecidableEq, Repr

/-- The `call_doc` dictionary built at lines 149-157, as the ordered
key/value list the Python dict literal writes. -/
def call_doc (CallSid : String) (From To : Option String)
    (transcript answer_text now : String) : List (String × FireVal) :=
  [ ("call_sid", FireVal.s CallSid),
    ("from", FireVal.optS From),
    ("to", FireVal.optS To),
    ("question_transcript", FireVal.s transcript),
    ("answer_text", FireVal.s answer_text),
    ("created_at", FireVal.s now),
    ("type", FireVal.s "qa") ]

/-- Observable calls the handler makes to its collaborators, in order.
`storeCall` records the Firestore document path pieces
(calls/{callSid}/turns/{docId}) and the document written; `publishCall`
records the storage path and content type. -/
inductive Event
  | sttCall (url : String)
  | llmCall (question : String)
  | ttsCall (text : String)
  | storeCall (callSid : String) (docId : String) (doc : List (String × FireVal))
  | publishCall (path : String) (contentType : String)
  deriving DecidableEq, Repr

/-- True exactly on a `storeCall` event. -/
def Event.isStore : Event → Bool
  | Event.storeCall _ _ _ => true
  | _ => false

/-- True exactly on a `publishCall` event. -/
def Event.isPublish : Event → Bool
  | Event.publishCall _ _ => true
  | _ => false

/-- True exactly on an `llmCall` event. -/
def Event.isLlm : Event → Bool
  | Event.llmCall _ => true
  | _ => false

/-- The collaborators of `process_recording`, plus the fresh identifiers
and the current timestamp drawn during the handler (two `uuid.uuid4()`
calls and `datetime.now`).  Each fallible Python call is an oracle
returning `Except Err`; the source catches none of them. -/
structure Env where
  transcribe : String → Except Err String
  lawyer_bot_answer : String → Except Err String
  azure_tts_to_mp3 : String → Except Err Bytes
  firestore_set : String → String → List (String × FireVal) → Except Err Unit
  upload_bytes_to_firebase : Bytes → String → String → Except Err String
  turn_uuid : String
  audio_uuid : String
  now : String

/-- Fallback answer when the transcript strips to empty (line 140). -/
def apology : String :=
  "Sorry, I could not understand the audio. Please try again or consult a licensed attorney."

/-- Follow-up prompt of the turn endpoint (line 168). -/
def followupPrompt : String :=
  "You may ask one more short question after the beep."

/-- Terminal goodbye of the turn endpoint (line 177). -/
def turnGoodbye : String :=
  "Thank you for calling. Goodbye."

/-- The TwiML built at lines 166-177 once a public URL is available:
play the answer audio, speak the follow-up prompt, record again with the
same parameters, then the terminal goodbye. -/
def successInstrs (public_url : String) : List Instr :=
  [ Instr.play public_url,
    Instr.say followupPrompt,
    recordInstr,
    Instr.say turnGoodbye ]

/-- `POST /twilio/process_recording` (lines 128-178).  The five steps run
in source order: STT on `RecordingUrl ++ ".wav"` (line 136), the LLM (or
the apology fallback when the stripped transcript is empty, lines
139-142), TTS (line 145), the Firestore write (lines 148-159), the audio
upload (lines 162-163), and finally the TwiML response (lines 166-178).
There is no exception handling: an `Except.error` from any oracle is
returned as the handler result, exactly as the Python exception would
propagate out of the handler.  The second component is the trace of
collaborator calls made before the handler finished or raised. -/
def process_recording (env : Env) (RecordingUrl CallSid : String)
    (From To : Option String) : Except Err (List Instr) × List Event :=
  match env.transcribe (RecordingUrl ++ ".wav") with
  | Except.error e => (Except.error e, [Event.sttCall (RecordingUrl ++ ".wav")])
  | Except.ok transcript =>
    match
      (if py_strip transcript = "" then
        (Except.ok apology, [Event.sttCall (RecordingUrl ++ ".wav")])
      else
        match env.lawyer_bot_answer transcript with
        | Except.error e =>
          (Except.error e,
            [Event.sttCall (RecordingUrl ++ ".wav"), Event.llmCall transcript])
        | Except.ok a =>
          (Except.ok a,
            [Event.sttCall (RecordingUrl ++ ".wav"), Event.llmCall transcript]) :
        Except Err String × List Event)
    with
    | (Except.error e, tr) => (Except.error e, tr)
    | (Except.ok answer_text, tr) =>
      match env.azure_tts_to_mp3 answer_text with
      | Except.error e => (Except.error e, tr ++ [Event.ttsCall answer_text])
      | Except.ok audio_bytes =>
        match
          env.firestore_set CallSid env.turn_uuid
            (call_doc CallSid From To transcript answer_text env.now)
        with
        | Except.error e =>
          (Except.error e,
            tr ++ [Event.ttsCall answer_text,
              Event.storeCall CallSid env.turn_uuid
                (call_doc CallSid From To transcript answer_text env.now)])
        | Except.ok _ =>
          match
            env.upload_bytes_to_firebase audio_bytes
              ("calls/" ++ CallSid ++ "/" ++ env.audio_uuid ++ ".mp3")
              "audio/mpeg"
          with
          | Except.error e =>
            (Except.error e,
              tr ++ [Event.ttsCall answer_text,
                Event.storeCall CallSid env.turn_uuid
                  (call_doc CallSid From To transcript answer_text env.now),
                Event.publishCall
                  ("calls/" ++ CallSid ++ "/" ++ env.audio_uuid ++ ".mp3")
                  "audio/mpeg"])
          | Except.ok public_url =>
            (Except.ok (successInstrs public_url),
              tr ++ [Event.ttsCall answer_text,
                Event.storeCall CallSid env.turn_uuid
                  (call_doc CallSid From To transcript answer_text env.now),
                Event.publishCall
                  ("calls/" ++ CallSid ++ "/" ++ env.audio_uuid ++ ".mp3")
                  "audio/mpeg"])

/-- An environment in which every collaborator succeeds. -/
def envGood : Env :=
  { transcribe := fun _ => Except.ok "hello"
    lawyer_bot_answer := fun _ => Except.ok "a general answer"
    azure_tts_to_mp3 := fun _ => Except.ok [0, 1]
    firestore_set := fun _ _ _ => Except.ok ()
    upload_bytes_to_firebase := fun _ _ _ => Except.ok "https://pub/x.mp3"
    turn_uuid := "turn-1"
    audio_uuid := "audio-1"
    now := "2026-10-12T00:00:00+00:00" }

/-- Like `envGood` but speech-to-text raises a transport error. -/
def envSttFail : Env :=
  { envGood with transcribe := fun _ => Except.error Err.sttErr }

/-- Like `envGood` but the LLM call raises. -/
def envLlmFail : Env :=
  { envGood with lawyer_bot_answer := fun _ => Except.error Err.llmErr }

/-- Like `envGood` but text-to-speech raises. -/
def envTtsFail : Env :=
  { envGood with azure_tts_to_mp3 := fun _ => Except.error Err.ttsErr }

/-- Like `envGood` but the Firestore write raises. -/
def envStoreFail : Env :=
  { envGood with firestore_set := fun _ _ _ => Except.error Err.storeErr }

/-- Like `envGood` but the recognizer yields a whitespace-only transcript. -/
def envNoSpeech : Env :=
  { envGood with transcribe := fun _ => Except.ok "  " }

/-
Helper lemmas shared by several claim theorems.
-/

/-- Every run of the handler either propagates a collaborator error or
returns exactly the play/prompt/record/goodbye instruction list. -/
theorem processRecording_cases (env : Env) (u c : String) (f t : Option String) :
    (∃ e, (process_recording env u c f t).1 = Except.error e) ∨
    (∃ url, (process_recording env u c f t).1 = Except.ok (successInstrs url)) := by
  unfold process_recording
  repeat' split
  all_goals simp

/-- When the handler returns instructions, they are `successInstrs url`
for the published URL. -/
theorem processRecording_ok_shape (env : Env) (u c : String) (f t : Option String)
    (instrs : List Instr)
    (h : (process_recording env u c f t).1 = Except.ok instrs) :
    ∃ url, instrs = successInstrs url := by
  rcases processRecording_cases env u c f t with ⟨e, he⟩ | ⟨url, hu⟩
  · rw [he] at h; exact Except.noConfusion h
  · rw [hu] at h; exact ⟨url, (Except.ok.inj h).symm⟩

/-
Claim theorems.
-/

/-- C1 counterexample: the claim says every stage failure is caught inside
the handler and a well-formed instruction set is always returned.  With the
speech-to-text collaborator raising a transport error, the handler returns
no instruction set at all: the exception propagates (an HTTP 500), refuting
the claim at this concrete input. -/
theorem C1_counterexample :
    ¬ ∃ instrs, (process_recording envSttFail "u" "CA1" none none).1 =
      Except.ok instrs := by
  rintro ⟨instrs, h⟩
  rw [show (process_recording envSttFail "u" "CA1" none none).1 =
    Except.error Err.sttErr from rfl] at h
  exact Except.noConfusion h

/-- C1 amended: stage failures are not caught inside `process_recording`;
an exception from any stage propagates out of the handler, and a
well-formed instruction set is returned only on runs where every stage the
pipeline reaches succeeds. -/
theorem C1_amended (env : Env) (RecordingUrl CallSid : String)
    (From To : Option String) :
    (∃ e, (process_recording env RecordingUrl CallSid From To).1 =
      Except.error e) ∨
    (∃ url, (process_recording env RecordingUrl CallSid From To).1 =
      Except.ok (successInstrs url)) :=
  processRecording_cases env RecordingUrl CallSid From To

/-- C2 counterexample: the claim says the record-turn stage always executes
and a Turn with status stt_failed is stored when speech-to-text throws.  In
the code, when the speech-to-text call raises, the only collaborator call
made is the speech-to-text call itself: Firestore is never invoked, nothing
is stored, and the error propagates. -/
theorem C2_counterexample :
    (process_recording envSttFail "u" "CA1" none none).2 =
      [Event.sttCall "u.wav"] ∧
    (process_recording envSttFail "u" "CA1" none none).1 =
      Except.error Err.sttErr :=
  ⟨rfl, rfl⟩

/-- C2 amended: when the speech-to-text call raises, the pipeline stops at
stage 1: the error propagates as the handler result and no further
collaborator call (in particular no store) is made; the Firestore write
executes only when transcription, answering and synthesis all succeed. -/
theorem C2_store_requires_upstream_success (env : Env) (u c : String)
    (f t : Option String) (e : Err)
    (h : env.transcribe (u ++ ".wav") = Except.error e) :
    (process_recording env u c f t).1 = Except.error e ∧
    (process_recording env u c f t).2 = [Event.sttCall (u ++ ".wav")] := by
  unfold process_recording
  rw [h]
  exact ⟨rfl, rfl⟩

/-- C2 witness: the amended statement at a concrete environment whose
speech-to-text oracle raises. -/
theorem C2_witness :
    (process_recording envSttFail "w" "C" none none).1 =
      Except.error Err.sttErr ∧
    (process_recording envSttFail "w" "C" none none).2 =
      [Event.sttCall "w.wav"] :=
  C2_store_requires_upstream_success envSttFail "w" "C" none none Err.sttErr rfl

/-- C3 counterexample: two environments identical in every collaborator
except the Firestore write (`envStoreFail` only replaces `firestore_set`)
produce different handler results: the instruction set when the write
succeeds, a propagated error when it raises.  A persistence failure does
change what the caller receives, refuting the claim. -/
theorem C3_counterexample :
    envStoreFail.transcribe = envGood.transcribe ∧
    envStoreFail.lawyer_bot_answer = envGood.lawyer_bot_answer ∧
    envStoreFail.azure_tts_to_mp3 = envGood.azure_tts_to_mp3 ∧
    envStoreFail.upload_bytes_to_firebase = envGood.upload_bytes_to_firebase ∧
    (process_recording envGood "u" "CA1" none none).1 =
      Except.ok (successInstrs "https://pub/x.mp3") ∧
    (process_recording envStoreFail "u" "CA1" none none).1 =
      Except.error Err.storeErr :=
  ⟨rfl, rfl, rfl, rfl, rfl, rfl⟩

/-- C3 amended: a persistence failure does alter the response.  Whenever a
run returns an instruction set, the run differing only in the Firestore
write raising returns the propagated store error instead (no instruction
set, and the audio is never published since the upload follows the write). -/
theorem C3_store_failure_changes_response (env : Env) (u c : String)
    (f t : Option String) (e : Err) (instrs : List Instr)
    (h : (process_recording env u c f t).1 = Except.ok instrs) :
    (process_recording
      { env with firestore_set := fun _ _ _ => Except.error e } u c f t).1 =
      Except.error e := by
  unfold process_recording at h ⊢
  cases h1 : env.transcribe (u ++ ".wav") with
  | error e0 => rw [h1] at h; exact Except.noConfusion h
  | ok transcript =>
    rw [h1] at h
    by_cases hs : py_strip transcript = ""
    · cases h3 : env.azure_tts_to_mp3 apology with
      | error e1 => simp [hs, h3] at h
      | ok bytes => simp [hs, h3]
    · cases h2 : env.lawyer_bot_answer transcript with
      | error e2 => simp [hs, h2] at h
      | ok a =>
        cases h3 : env.azure_tts_to_mp3 a with
        | error e1 => simp [hs, h2, h3] at h
        | ok bytes => simp [hs, h2, h3]

/-- C3 witness: the amended statement at the concrete all-success
environment, whose store-failing twin returns the store error. -/
theorem C3_witness :
    (process_recording
      { envGood with firestore_set := fun _ _ _ => Except.error Err.storeErr }
      "u" "CA1" none none).1 = Except.error Err.storeErr :=
  C3_store_failure_changes_response envGood "u" "CA1" none none Err.storeErr
    (successInstrs "https://pub/x.mp3") rfl

/-- C4 counterexample: a successful run stores a document whose key list is
exactly [call_sid, from, to, question_transcript, answer_text, created_at,
type]: there is no status field (and no turn_id, audio_url or call_id
field), refuting the claimed record shape and status taxonomy. -/
theorem C4_counterexample :
    Event.storeCall "CA1" "turn-1"
      (call_doc "CA1" none none "hello" "a general answer"
        "2026-10-12T00:00:00+00:00") ∈
      (process_recording envGood "u" "CA1" none none).2 ∧
    (call_doc "CA1" none none "hello" "a general answer"
      "2026-10-12T00:00:00+00:00").map Prod.fst =
      ["call_sid", "from", "to", "question_transcript", "answer_text",
        "created_at", "type"] ∧
    "status" ∉ (call_doc "CA1" none none "hello" "a general answer"
      "2026-10-12T00:00:00+00:00").map Prod.fst ∧
    "turn_id" ∉ (call_doc "CA1" none none "hello" "a general answer"
      "2026-10-12T00:00:00+00:00").map Prod.fst ∧
    "audio_url" ∉ (call_doc "CA1" none none "hello" "a general answer"
      "2026-10-12T00:00:00+00:00").map Prod.fst ∧
    "call_id" ∉ (call_doc "CA1" none none "hello" "a general answer"
      "2026-10-12T00:00:00+00:00").map Prod.fst := by
  refine ⟨?_, rfl, ?_, ?_, ?_, ?_⟩ <;> decide

/-- C4 amended: every Turn document the handler persists is written under
the call-scoped turns collection of the webhook call sid, keyed by the
fresh uuid drawn for the turn (a fresh key per run, so never overwritten),
and is exactly a `call_doc`: fields [call_sid, from, to,
question_transcript, answer_text, created_at, type] with no turn_id,
audio_url or status field. -/
theorem C4_stored_doc_shape (env : Env) (u c : String) (f t : Option String)
    (cs d : String) (doc : List (String × FireVal))
    (h : Event.storeCall cs d doc ∈ (process_recording env u c f t).2) :
    cs = c ∧ d = env.turn_uuid ∧
    (∃ transcript answer_text,
      doc = call_doc c f t transcript answer_text env.now) ∧
    doc.map Prod.fst =
      ["call_sid", "from", "to", "question_transcript", "answer_text",
        "created_at", "type"] := by
  unfold process_recording at h
  cases h1 : env.transcribe (u ++ ".wav") with
  | error e0 => rw [h1] at h; simp at h
  | ok transcript =>
    rw [h1] at h
    by_cases hs : py_strip transcript = ""
    case pos =>
      cases h3 : env.azure_tts_to_mp3 apology with
      | error e1 => simp [hs, h3] at h
      | ok bytes =>
        cases h4 : env.firestore_set c env.turn_uuid
            (call_doc c f t transcript apology env.now) with
        | error e1 =>
          simp [hs, h3, h4] at h
          exact ⟨h.1, h.2.1, ⟨transcript, apology, h.2.2⟩,
            by simp [h.2.2, call_doc]⟩
        | ok uu =>
          cases h5 : env.upload_bytes_to_firebase bytes
              ("calls/" ++ c ++ "/" ++ env.audio_uuid ++ ".mp3") "audio/mpeg" with
          | error e1 =>
            simp [hs, h3, h4, h5] at h
            exact ⟨h.1, h.2.1, ⟨transcript, apology, h.2.2⟩,
              by simp [h.2.2, call_doc]⟩
          | ok url =>
            simp [hs, h3, h4, h5] at h
            exact ⟨h.1, h.2.1, ⟨transcript, apology, h.2.2⟩,
              by simp [h.2.2, call_doc]⟩
    case neg =>
      cases h2 : env.lawyer_bot_answer transcript with
      | error e2 => simp [hs, h2] at h
      | ok a =>
        cases h3 : env.azure_tts_to_mp3 a with
        | error e1 => simp [hs, h2, h3] at h
        | ok bytes =>
          cases h4 : env.firestore_set c env.turn_uuid
              (call_doc c f t transcript a env.now) with
          | error e1 =>
            simp [hs, h2, h3, h4] at h
            exact ⟨h.1, h.2.1, ⟨transcript, a, h.2.2⟩,
              by simp [h.2.2, call_doc]⟩
          | ok uu =>
            cases h5 : env.upload_bytes_to_firebase bytes
                ("calls/" ++ c ++ "/" ++ env.audio_uuid ++ ".mp3") "audio/mpeg" with
            | error e1 =>
              simp [hs, h2, h3, h4, h5] at h
              exact ⟨h.1, h.2.1, ⟨transcript, a, h.2.2⟩,
                by simp [h.2.2, call_doc]⟩
            | ok url =>
              simp [hs, h2, h3, h4, h5] at h
              exact ⟨h.1, h.2.1, ⟨transcript, a, h.2.2⟩,
                by simp [h.2.2, call_doc]⟩

/-- C4 witness: the amended statement applied to the store event of the
all-success run. -/
theorem C4_witness :
    "CA1" = "CA1" ∧ "turn-1" = envGood.turn_uuid ∧
    (∃ transcript answer_text,
      call_doc "CA1" none none "hello" "a general answer" envGood.now =
        call_doc "CA1" none none transcript answer_text envGood.now) ∧
    (call_doc "CA1" none none "hello" "a general answer" envGood.now).map
      Prod.fst =
      ["call_sid", "from", "to", "question_transcript", "answer_text",
        "created_at", "type"] :=
  C4_stored_doc_shape envGood "u" "CA1" none none "CA1" "turn-1"
    (call_doc "CA1" none none "hello" "a general answer" envGood.now)
    (by decide)

/-- C5 counterexample: when text-to-speech raises after a successful
answer, the trace indeed contains no publish call, but contrary to the
claim no instruction set is returned at all — in particular no
Speak(answerText) substitution: the handler result is the propagated
synthesis error. -/
theorem C5_counterexample :
    (process_recording envTtsFail "u" "CA1" none none).1 =
      Except.error Err.ttsErr ∧
    (process_recording envTtsFail "u" "CA1" none none).2 =
      [Event.sttCall "u.wav", Event.llmCall "hello",
        Event.ttsCall "a general answer"] :=
  ⟨rfl, rfl⟩

/-- C5 amended: if the text-to-speech oracle raises, no publish call and
no store call is ever made (the upload and the Firestore write both follow
synthesis in the source), and the handler never returns an instruction
set: the failure propagates instead of being replaced by a spoken
rendition of the answer. -/
theorem C5_tts_failure_propagates (env : Env) (u c : String)
    (f t : Option String) (e : Err)
    (h : ∀ s, env.azure_tts_to_mp3 s = Except.error e) :
    (∀ ev ∈ (process_recording env u c f t).2,
      ev.isPublish = false ∧ ev.isStore = false) ∧
    ¬ ∃ instrs, (process_recording env u c f t).1 = Except.ok instrs := by
  unfold process_recording
  cases h1 : env.transcribe (u ++ ".wav") with
  | error e0 => simp [Event.isPublish, Event.isStore]
  | ok transcript =>
    by_cases hs : py_strip transcript = ""
    · simp [hs, h, Event.isPublish, Event.isStore]
    · cases h2 : env.lawyer_bot_answer transcript with
      | error e2 => simp [hs, h2, Event.isPublish, Event.isStore]
      | ok a => simp [hs, h2, h, Event.isPublish, Event.isStore]

/-- C5 witness: the amended statement at the concrete environment whose
text-to-speech oracle raises. -/
theorem C5_witness :
    (∀ ev ∈ (process_recording envTtsFail "u" "CA1" none none).2,
      ev.isPublish = false ∧ ev.isStore = false) ∧
    ¬ ∃ instrs, (process_recording envTtsFail "u" "CA1" none none).1 =
      Except.ok instrs :=
  C5_tts_failure_propagates envTtsFail "u" "CA1" none none Err.ttsErr
    (fun _ => rfl)

/-- C6: when speech-to-text returns a transcript that strips to the empty
string, the LLM is never called, and text-to-speech is invoked on the
fixed apology message (the answer text used for the rest of the turn). -/
theorem C6_no_speech_fallback (env : Env) (u c : String) (f t : Option String)
    (transcript : String)
    (h1 : env.transcribe (u ++ ".wav") = Except.ok transcript)
    (h2 : py_strip transcript = "") :
    (∀ ev ∈ (process_recording env u c f t).2, ev.isLlm = false) ∧
    Event.ttsCall apology ∈ (process_recording env u c f t).2 := by
  unfold process_recording
  rw [h1]
  cases h3 : env.azure_tts_to_mp3 apology with
  | error e => simp [h2, h3, Event.isLlm]
  | ok bytes =>
    cases h4 : env.firestore_set c env.turn_uuid
        (call_doc c f t transcript apology env.now) with
    | error e => simp [h2, h3, h4, Event.isLlm]
    | ok uu =>
      cases h5 : env.upload_bytes_to_firebase bytes
          ("calls/" ++ c ++ "/" ++ env.audio_uuid ++ ".mp3") "audio/mpeg" with
      | error e => simp [h2, h3, h4, h5, Event.isLlm]
      | ok url => simp [h2, h3, h4, h5, Event.isLlm]

/-- C6 witness: with a whitespace-only transcript, theorem
`C6_no_speech_fallback` applies concretely. -/
theorem C6_witness :
    (∀ ev ∈ (process_recording envNoSpeech "u" "CA1" none none).2,
      ev.isLlm = false) ∧
    Event.ttsCall apology ∈ (process_recording envNoSpeech "u" "CA1" none none).2 :=
  C6_no_speech_fallback envNoSpeech "u" "CA1" none none "  " rfl rfl

/-- C7: the call-start endpoint is a total pure function (it always
succeeds and performs no external calls) and produces the greeting Speak
followed by the Record instruction with max duration 30 seconds, lead-in
beep, trim-silence and a 3 second silence timeout; the code additionally
appends the terminal goodbye Speak treated by C10. -/
theorem C7_startCall_instructions :
    twilio_voice =
      [Instr.say greeting,
        Instr.record "/twilio/process_recording" "POST" 30 true "trim-silence" 3,
        Instr.say startGoodbye] := rfl

/-- C8 counterexample: for the outcome the claim calls llm_failed (the
answer generator raising), the handler returns no instruction set at all —
the error propagates — refuting the claim for the failure statuses. -/
theorem C8_counterexample :
    (process_recording envLlmFail "u" "CA1" none none).1 =
      Except.error Err.llmErr :=
  rfl

/-- C8 amended: an instruction set is returned only on runs where every
stage succeeded (the ok and no_speech outcomes); it is then non-empty and
is exactly one PlayAudio, the follow-up Speak, exactly one Record, and the
terminal goodbye Speak — never a Speak of the answer text. -/
theorem C8_ok_instruction_shape (env : Env) (u c : String)
    (f t : Option String) (instrs : List Instr)
    (h : (process_recording env u c f t).1 = Except.ok instrs) :
    instrs ≠ [] ∧
    ∃ url, instrs =
      [Instr.play url, Instr.say followupPrompt, recordInstr,
        Instr.say turnGoodbye] := by
  obtain ⟨url, rfl⟩ := processRecording_ok_shape env u c f t instrs h
  exact ⟨by simp [successInstrs], url, rfl⟩

/-- C8 witness: the amended statement at the all-success environment. -/
theorem C8_witness :
    successInstrs "https://pub/x.mp3" ≠ [] ∧
    ∃ url, successInstrs "https://pub/x.mp3" =
      [Instr.play url, Instr.say followupPrompt, recordInstr,
        Instr.say turnGoodbye] :=
  C8_ok_instruction_shape envGood "u" "CA1" none none
    (successInstrs "https://pub/x.mp3") rfl

/-- C9 counterexample: a recognizer outcome of canceled (an engine
failure) makes the adapter return Except.ok with the empty string — the
very same value as the benign no-match outcome — so an empty transcript
does not occur only when no speech was detected, and engine failures do
not surface as a distinguishable error. -/
theorem C9_counterexample :
    azure_transcribe_from_url (fun _ => Except.ok [1])
      (fun _ => ⟨ResultReason.canceled, ""⟩) "a" = Except.ok "" ∧
    azure_transcribe_from_url (fun _ => Except.ok [1])
      (fun _ => ⟨ResultReason.noMatch, ""⟩) "a" = Except.ok "" :=
  ⟨rfl, rfl⟩

/-- C9 amended: the adapter collapses every non-recognized recognition
outcome — no-match and canceled engine failures alike — to the empty
string; only an error raised while downloading the audio propagates as a
distinguishable failure. -/
theorem C9_no_engine_error_distinction (download : String → Except Err Bytes)
    (recognize : Bytes → RecognizeResult) (url : String) :
    (∀ wav, download url = Except.ok wav →
      (recognize wav).reason ≠ ResultReason.recognizedSpeech →
      azure_transcribe_from_url download recognize url = Except.ok "") ∧
    (∀ e, download url = Except.error e →
      azure_transcribe_from_url download recognize url = Except.error e) := by
  constructor
  · intro wav h1 h2
    simp [azure_transcribe_from_url, h1, h2]
  · intro e h1
    simp [azure_transcribe_from_url, h1]

/-- C9 witness: the amended statement at concrete oracles, one with a
canceled recognition and one with a failing download. -/
theorem C9_witness :
    azure_transcribe_from_url (fun _ => Except.ok [2])
      (fun _ => ⟨ResultReason.canceled, "boom"⟩) "b" = Except.ok "" ∧
    azure_transcribe_from_url (fun _ => Except.error Err.transport)
      (fun _ => ⟨ResultReason.canceled, "boom"⟩) "b" =
      Except.error Err.transport :=
  ⟨(C9_no_engine_error_distinction (fun _ => Except.ok [2])
      (fun _ => ⟨ResultReason.canceled, "boom"⟩) "b").1 [2] rfl (by decide),
    (C9_no_engine_error_distinction (fun _ => Except.error Err.transport)
      (fun _ => ⟨ResultReason.canceled, "boom"⟩) "b").2 Err.transport rfl⟩

/-- C10: both endpoint instruction lists end with a terminal Speak placed
directly after the final Record: the call-start endpoint ends with the
no-recording goodbye, and every instruction set the turn endpoint returns
ends with the thank-you goodbye. -/
theorem C10_terminal_goodbye :
    (twilio_voice.getLast? = some (Instr.say startGoodbye) ∧
      twilio_voice.dropLast.getLast? = some recordInstr) ∧
    ∀ env u c (f t : Option String) instrs,
      (process_recording env u c f t).1 = Except.ok instrs →
      instrs.getLast? = some (Instr.say turnGoodbye) ∧
      instrs.dropLast.getLast? = some recordInstr := by
  refine ⟨⟨rfl, rfl⟩, ?_⟩
  intro env u c f t instrs h
  obtain ⟨url, rfl⟩ := processRecording_ok_shape env u c f t instrs h
  exact ⟨rfl, rfl⟩

/-- C10 witness: the turn-endpoint part of `C10_terminal_goodbye` applied
to the all-success run. -/
theorem C10_witness :
    (successInstrs "https://pub/x.mp3").getLast? =
      some (Instr.say turnGoodbye) ∧
    (successInstrs "https://pub/x.mp3").dropLast.getLast? = some recordInstr :=
  C10_terminal_goodbye.2 envGood "u" "CA1" none none
    (successInstrs "https://pub/x.mp3") rfl

end Phisda
